import Mathlib

set_option exponentiation.threshold 5000
set_option maxRecDepth 8000

/-!
Verification of the safe arithmetic evaluator of `src/app.py`.

The program is a small Flask application whose core is `safe_eval`: it strips
the input string, rejects it when the trimmed length exceeds 100, parses it
with Python's `ast.parse(expr, mode="eval")`, and walks the resulting tree
with `_eval_node`, a whitelist interpreter that only accepts numeric
constants, unary `+`/`-`, and the seven binary operators
`+ - * / // % **`; every other node raises
`ValueError("Unsupported or unsafe expression")`.

Embedding choices, documented once here:
* Python `int` is unbounded and is modelled by `ℤ`.
* Python `float` is modelled by an exact rational `ℚ`.  Every float literal
  and every float operation exercised by the claims is exact at this level
  (e.g. `0.5`); rounding of binary64 arithmetic is not modelled.  A power
  with a non-integral exponent and a positive base produces an irrational
  float; it is modelled by the marker `PyNum.floatApprox`, an unspecified
  nonzero float (exact-real semantics: every model operation that yields an
  exact zero returns `.float 0` instead; float underflow and catastrophic
  cancellation are not modelled, and non-finite floats produced silently by
  `*`, `+`, `-`, float `//` are represented by their exact rational value,
  which preserves value-versus-error outcomes).
* The error paths of CPython arithmetic that change value-versus-error
  outcomes are modelled where they are exactly decidable: `OverflowError`
  on int-to-float (or int-to-complex) conversion at the threshold
  `2^1024 - 2^970`; `OverflowError` for `int / int` results beyond float
  range (true division is correctly rounded, so the threshold is exact);
  and `OverflowError` for float and complex powers whose result magnitude
  leaves the float range, decided at the exact-real threshold `2^1024`
  (libm's `ERANGE` cutoff may differ by one rounding step at the
  boundary).
* Python 3 returns a complex number for `x ** y` when `x < 0` and `y` is a
  non-integral float (CPython `float_pow` delegates to complex
  exponentiation, which can also raise `OverflowError`); `PyNum.complex z`
  records a complex value whose payload is abstracted except for exact
  knowledge of being `0j` (the flag `z`).  Complex operands of `//` and `%`
  raise `TypeError` in Python 3, before any conversion or zero check, and a
  complex division by a complex zero raises `ZeroDivisionError`.  Range
  errors of powers with an abstracted complex base are not modelled (their
  magnitudes are unknown).
* Python `bool` is a subclass of `int`, so `isinstance(True, int)` holds and
  `_eval_node` accepts `ast.Constant(True)` as the integer 1.
* The `ast.Num` branch of `_eval_node` (app.py line 51) is live on CPython
  3.8-3.13: `ast.Num` carries the `_ABC` metaclass whose
  `__instancecheck__` accepts any `ast.Constant` holding an `int`, `float`
  or `complex` (and not a `bool`), with `node.n` returning the value.
  Since int/float/bool constants are already handled by the preceding
  `isinstance` check, the branch is reached exactly for complex constants,
  which therefore evaluate to their complex value.
* Python exceptions escaping `safe_eval` are the error results:
  `ValueError("Expression too long")` is `tooLong`, `SyntaxError` from
  `ast.parse` is `parseError`, `ValueError("Unsupported or unsafe
  expression")` is `unsupported`, `ZeroDivisionError` is `divByZero`,
  `TypeError` is `typeErr`, and `OverflowError` is `overflowErr`.
* `ast.parse` is Python's own parser; it is modelled here by a tokenizer and
  recursive-descent parser for the fragment of Python expressions the claims
  exercise: integer, float and imaginary literals (with optional exponent
  part and `j`/`J` suffix), string literals (no escape sequences),
  identifiers (with the keyword constants `True`, `False`, `None`),
  attribute access, calls, parentheses, and the arithmetic operators with
  Python's precedence (`**` right-associative, binding tighter than unary
  minus on its left, looser on its right).  A character or construct outside
  this fragment makes the model parser fail, i.e. yields `parseError`.
-/

namespace FlaskCalc

/-- Numeric values flowing through `_eval_node` (see module docstring).
`complex z` is a complex value with its payload abstracted except for the
flag `z`, which is `true` exactly when the value is known to be `0j`
(tracked through literals and the operations on exact zeros; for values the
model cannot determine — cancellations, abstracted magnitudes — the flag is
conservatively `false`, meaning "not known to be zero"). -/
inductive PyNum where
  | int (n : ℤ)
  | float (q : ℚ)
  | floatApprox
  | complex (z : Bool)
deriving DecidableEq, Repr

/-- The error outcomes of `safe_eval`, one per escaping Python exception
(`OverflowError` covers int-to-float conversion overflow, float/complex
power range errors, and int true-division results beyond float range). -/
inductive EvalErr where
  | tooLong
  | parseError
  | unsupported
  | divByZero
  | typeErr
  | overflowErr
deriving DecidableEq, Repr

/-- Constants as produced by `ast.parse` (`ast.Constant` payloads);
`cimag q` is the imaginary literal with value `q * 1j` (e.g. `1j`,
`2.5J`). -/
inductive PyConst where
  | cint (n : ℤ)
  | cfloat (q : ℚ)
  | cbool (b : Bool)
  | cnone
  | cstr (s : String)
  | cimag (q : ℚ)
deriving DecidableEq, Repr

/-- Binary operator tags of `ast.BinOp`; `_ops` maps the first seven to
`operator` functions, the rest fall through to the `ValueError`. -/
inductive PyBinOp where
  | add | sub | mult | div | floorDiv | mod | pow
  | bitOr | bitXor | bitAnd | lshift | rshift | matMult
deriving DecidableEq, Repr

/-- Unary operator tags of `ast.UnaryOp`; `_unary_ops` maps `uadd`/`usub`. -/
inductive PyUnaryOp where
  | uadd | usub | unot | invert
deriving DecidableEq, Repr

/-- Python expression trees as produced by `ast.parse(·, mode="eval")`,
restricted to the node kinds the modelled parser can produce. -/
inductive PyAst where
  | const (c : PyConst)
  | binOp (op : PyBinOp) (l r : PyAst)
  | unaryOp (op : PyUnaryOp) (e : PyAst)
  | name (id : String)
  | call (f : PyAst) (args : List PyAst)
  | attr (obj : PyAst) (field : String)
deriving Repr

/-- The keys of the `_ops` dictionary. -/
def opSupported : PyBinOp → Bool
  | .add | .sub | .mult | .div | .floorDiv | .mod | .pow => true
  | _ => false

/-- The keys of the `_unary_ops` dictionary. -/
def unarySupported : PyUnaryOp → Bool
  | .uadd | .usub => true
  | _ => false

/-- Python truth of `value == 0` for the numeric model.  For `complex z`
this is the zero flag; `floatApprox` is never a model-known zero (every
model operation that would produce an exactly zero float returns
`.float 0` instead, so in exact-real semantics `floatApprox` values are
nonzero; float underflow and cancellation are not modelled). -/
def pyIsZero : PyNum → Bool
  | .int n => n == 0
  | .float q => q == 0
  | .complex z => z
  | .floatApprox => false

/-- CPython raises `OverflowError` when converting an `int` to a float
(or complex) whose magnitude reaches `2^1024 - 2^970`, the first integer
that rounds (ties-to-even) to infinity. -/
def intTooBig : PyNum → Bool
  | .int n => 2 ^ 1024 - 2 ^ 970 ≤ n.natAbs
  | _ => false

/-- `int / int` true division is correctly rounded and raises
`OverflowError: integer division result too large for a float` exactly
when `|m / n| ≥ 2^1024 - 2^970`. -/
def divResultTooBig (m n : ℤ) : Bool :=
  (2 ^ 1024 - 2 ^ 970) * n.natAbs ≤ m.natAbs

/-- Whether `|x| ^ e` (with `x ≠ 0`) reaches the float overflow range
`2^1024`, decided exactly in integer arithmetic:
`|x|^(num/den) ≥ 2^1024  ↔  |x.num|^num ≥ 2^(1024·den) · x.den^num`.
CPython raises `OverflowError` from `float`/`complex` power on `ERANGE`;
the model uses the exact-real threshold `2^1024`, which may differ from
libm's cutoff by one rounding step at the boundary (documented
abstention). -/
def powOverflows (x : ℚ) (e : ℚ) : Bool :=
  if 0 ≤ e.num then
    2 ^ (1024 * e.den) * x.den ^ e.num.toNat ≤ x.num.natAbs ^ e.num.toNat
  else
    2 ^ (1024 * e.den) * x.num.natAbs ^ e.num.natAbs ≤ x.den ^ e.num.natAbs

/-- Numeric coercion to the exact rational value (int or float cases). -/
def toQ : PyNum → ℚ
  | .int n => (n : ℚ)
  | .float q => q
  | _ => 0

/-- `operator.neg`. -/
def pyNeg : PyNum → PyNum
  | .int n => .int (-n)
  | .float q => .float (-q)
  | .floatApprox => .floatApprox
  | .complex z => .complex z

/-- `_unary_ops` dispatch: `operator.neg` for `USub`, `operator.pos`
(the identity on numbers) for `UAdd`. -/
def applyUnary : PyUnaryOp → PyNum → PyNum
  | .usub, v => pyNeg v
  | _, v => v

/-- `operator.add` with Python numeric coercion: a complex operand makes
the other operand convert to complex (`OverflowError` for an int beyond
float range), a mixed int/float pair converts the int (same overflow
check); `int + int` is exact.  The complex zero flag of a sum is known
only when both summands are zero (cancellation is not modelled). -/
def pyAdd (a b : PyNum) : Except EvalErr PyNum :=
  match a, b with
  | .complex za, .complex zb => .ok (.complex (za && zb))
  | .complex za, c =>
    if intTooBig c then .error .overflowErr
    else .ok (.complex (za && pyIsZero c))
  | c, .complex zb =>
    if intTooBig c then .error .overflowErr
    else .ok (.complex (pyIsZero c && zb))
  | .floatApprox, c =>
    if intTooBig c then .error .overflowErr else .ok .floatApprox
  | c, .floatApprox =>
    if intTooBig c then .error .overflowErr else .ok .floatApprox
  | .int m, .int n => .ok (.int (m + n))
  | a, b =>
    if intTooBig a || intTooBig b then .error .overflowErr
    else .ok (.float (toQ a + toQ b))

/-- `operator.sub`; same coercion and conversion-overflow structure as
`pyAdd`. -/
def pySub (a b : PyNum) : Except EvalErr PyNum :=
  match a, b with
  | .complex za, .complex zb => .ok (.complex (za && zb))
  | .complex za, c =>
    if intTooBig c then .error .overflowErr
    else .ok (.complex (za && pyIsZero c))
  | c, .complex zb =>
    if intTooBig c then .error .overflowErr
    else .ok (.complex (pyIsZero c && zb))
  | .floatApprox, c =>
    if intTooBig c then .error .overflowErr else .ok .floatApprox
  | c, .floatApprox =>
    if intTooBig c then .error .overflowErr else .ok .floatApprox
  | .int m, .int n => .ok (.int (m - n))
  | a, b =>
    if intTooBig a || intTooBig b then .error .overflowErr
    else .ok (.float (toQ a - toQ b))

/-- `operator.mul`; a product is zero exactly when one factor is zero
(finite-by-zero multiplication is exact in IEEE arithmetic), so the zero
flag is tracked exactly and a `floatApprox` times an exact zero is the
exact float `0.0`. -/
def pyMul (a b : PyNum) : Except EvalErr PyNum :=
  match a, b with
  | .complex za, .complex zb => .ok (.complex (za || zb))
  | .complex za, c =>
    if intTooBig c then .error .overflowErr
    else .ok (.complex (za || pyIsZero c))
  | c, .complex zb =>
    if intTooBig c then .error .overflowErr
    else .ok (.complex (pyIsZero c || zb))
  | .floatApprox, c =>
    if intTooBig c then .error .overflowErr
    else if pyIsZero c then .ok (.float 0)
    else .ok .floatApprox
  | c, .floatApprox =>
    if intTooBig c then .error .overflowErr
    else if pyIsZero c then .ok (.float 0)
    else .ok .floatApprox
  | .int m, .int n => .ok (.int (m * n))
  | a, b =>
    if intTooBig a || intTooBig b then .error .overflowErr
    else .ok (.float (toQ a * toQ b))

/-- `operator.truediv`.  `int / int` checks the zero divisor first (no
conversion) and raises `OverflowError` when the correctly rounded quotient
exceeds the float range; a mixed int/float or complex pair converts first
(`OverflowError` for huge ints) and then raises `ZeroDivisionError` on a
zero divisor — including a complex zero divisor ("complex division by
zero").  A zero numerator gives an exact zero result. -/
def pyDiv (a b : PyNum) : Except EvalErr PyNum :=
  match a, b with
  | .complex za, .complex zb =>
    if zb then .error .divByZero else .ok (.complex za)
  | .complex za, c =>
    if intTooBig c then .error .overflowErr
    else if pyIsZero c then .error .divByZero
    else .ok (.complex za)
  | c, .complex zb =>
    if intTooBig c then .error .overflowErr
    else if zb then .error .divByZero
    else .ok (.complex (pyIsZero c))
  | .int m, .int n =>
    if n = 0 then .error .divByZero
    else if divResultTooBig m n then .error .overflowErr
    else .ok (.float ((m : ℚ) / (n : ℚ)))
  | .floatApprox, c =>
    if intTooBig c then .error .overflowErr
    else if pyIsZero c then .error .divByZero
    else .ok .floatApprox
  | c, .floatApprox =>
    if intTooBig c then .error .overflowErr
    else if pyIsZero c then .ok (.float 0)
    else .ok .floatApprox
  | a, b =>
    if intTooBig a || intTooBig b then .error .overflowErr
    else if pyIsZero b then .error .divByZero
    else .ok (.float (toQ a / toQ b))

/-- `operator.floordiv`: Python 3 defines no floor division on complex
numbers, so any complex operand raises `TypeError` before any conversion
or zero check; `int // int` checks the zero divisor directly; a mixed
int/float pair converts first (`OverflowError` for huge ints) and then
checks the zero divisor; with a float operand the result is the floored
quotient as a float. -/
def pyFloorDiv (a b : PyNum) : Except EvalErr PyNum :=
  match a, b with
  | .complex _, _ => .error .typeErr
  | _, .complex _ => .error .typeErr
  | .int m, .int n =>
    if n = 0 then .error .divByZero else .ok (.int (Int.fdiv m n))
  | .floatApprox, c =>
    if intTooBig c then .error .overflowErr
    else if pyIsZero c then .error .divByZero
    else .ok .floatApprox
  | c, .floatApprox =>
    if intTooBig c then .error .overflowErr
    else if pyIsZero c then .ok (.float 0)
    else .ok .floatApprox
  | a, b =>
    if intTooBig a || intTooBig b then .error .overflowErr
    else if pyIsZero b then .error .divByZero
    else .ok (.float (((toQ a / toQ b).floor : ℤ) : ℚ))

/-- `operator.mod`: Python 3 defines no modulo on complex numbers
(`TypeError` before any conversion or zero check); `int % int` is floor-mod
`Int.fmod`; mixed pairs convert first (`OverflowError` for huge ints); with
a float operand the remainder is `a - b * floor(a / b)`. -/
def pyMod (a b : PyNum) : Except EvalErr PyNum :=
  match a, b with
  | .complex _, _ => .error .typeErr
  | _, .complex _ => .error .typeErr
  | .int m, .int n =>
    if n = 0 then .error .divByZero else .ok (.int (Int.fmod m n))
  | .floatApprox, c =>
    if intTooBig c then .error .overflowErr
    else if pyIsZero c then .error .divByZero
    else .ok .floatApprox
  | c, .floatApprox =>
    if intTooBig c then .error .overflowErr
    else if pyIsZero c then .ok (.float 0)
    else .ok .floatApprox
  | a, b =>
    if intTooBig a || intTooBig b then .error .overflowErr
    else if pyIsZero b then .error .divByZero
    else .ok (.float (toQ a - toQ b * (((toQ a / toQ b).floor : ℤ) : ℚ)))

/-- Whether a Python number is integral (`int`, or a float equal to its
floor); CPython tests `iw == floor(iw)` in `float_pow`. -/
def pyIsIntegral : PyNum → Bool
  | .int _ => true
  | .float q => q.den == 1
  | _ => false

/-- The integer value of an integral exponent. -/
def pyExpZ : PyNum → ℤ
  | .int n => n
  | .float q => q.num
  | _ => 0

/-- `operator.pow`, Python 3 semantics.  `int ** nonneg int` is exact and
never fails; `int ** negative int` converts both operands to float
(`OverflowError` for huge ints) and raises `ZeroDivisionError` on a zero
base.  With a float involved: huge int operands overflow on conversion; a
zero base gives `ZeroDivisionError` for a negative exponent, `1.0` for a
zero exponent and `0.0` otherwise; a negative base with a non-integral
exponent goes through complex exponentiation (CPython `float_pow`),
returning a complex value or raising `OverflowError` when the result
magnitude leaves the float range (`powOverflows`); an integral exponent
gives the exact rational power, with the same range check; a positive base
with a non-integral exponent gives an irrational float (`floatApprox`),
with the same range check.  A complex base that is `0j` raises
`ZeroDivisionError` for a negative or complex exponent; other complex
operands yield complex values (magnitudes of abstracted complex values are
unknown, so range errors of complex-base powers are not modelled). -/
def pyPow (a b : PyNum) : Except EvalErr PyNum :=
  match a, b with
  | .complex za, .complex _ =>
    if za then .error .divByZero else .ok (.complex false)
  | .complex za, e =>
    if intTooBig e then .error .overflowErr
    else if za then
      if toQ e < 0 then .error .divByZero
      else if toQ e = 0 then .ok (.complex false)
      else .ok (.complex true)
    else .ok (.complex false)
  | c, .complex _ =>
    if intTooBig c then .error .overflowErr
    else if pyIsZero c then .error .divByZero
    else .ok (.complex false)
  | .floatApprox, e =>
    if intTooBig e then .error .overflowErr else .ok .floatApprox
  | c, .floatApprox =>
    if intTooBig c then .error .overflowErr else .ok .floatApprox
  | .int m, .int n =>
    if 0 ≤ n then .ok (.int (m ^ n.toNat))
    else if intTooBig (.int m) || intTooBig (.int n) then .error .overflowErr
    else if m = 0 then .error .divByZero
    else .ok (.float ((m : ℚ) ^ n))
  | a, b =>
    if intTooBig a || intTooBig b then .error .overflowErr
    else if toQ a = 0 then
      if toQ b < 0 then .error .divByZero
      else if toQ b = 0 then .ok (.float 1)
      else .ok (.float 0)
    else if toQ a < 0 ∧ pyIsIntegral b = false then
      if powOverflows (toQ a) (toQ b) then .error .overflowErr
      else .ok (.complex false)
    else if pyIsIntegral b then
      if powOverflows (toQ a) (toQ b) then .error .overflowErr
      else .ok (.float (toQ a ^ pyExpZ b))
    else
      if powOverflows (toQ a) (toQ b) then .error .overflowErr
      else .ok .floatApprox

/-- The `_ops` dictionary: dispatch from the `ast.BinOp` operator tag to the
`operator` module function.  Tags outside `_ops` are unreachable here
because `_eval_node` tests membership first. -/
def applyBin : PyBinOp → PyNum → PyNum → Except EvalErr PyNum
  | .add, a, b => pyAdd a b
  | .sub, a, b => pySub a b
  | .mult, a, b => pyMul a b
  | .div, a, b => pyDiv a b
  | .floorDiv, a, b => pyFloorDiv a b
  | .mod, a, b => pyMod a b
  | .pow, a, b => pyPow a b
  | _, _, _ => .error .unsupported

/-- `_eval_node` of `src/app.py`: a `BinOp` whose operator is in `_ops`
evaluates its operands left to right and applies the operator (an exception
in the left operand preempts the right); a `UnaryOp` whose operator is in
`_unary_ops` evaluates its operand and applies it; a `Constant` carrying an
`int` (including `bool`, an `int` subclass, as 1 or 0) or `float` is its
value.  A `Constant` carrying a complex value fails that `isinstance`
check but is then caught by the `ast.Num` compatibility branch
(app.py line 51): on CPython 3.8-3.13 `ast.Num` has the `_ABC` metaclass
whose `__instancecheck__` accepts any `Constant` holding an `int`, `float`
or `complex` (and not a `bool`), and `node.n` returns the value — so a
complex literal evaluates to its complex value.  Every other node raises
`ValueError("Unsupported or unsafe expression")` without evaluating its
children. -/
def evalNode : PyAst → Except EvalErr PyNum
  | .binOp op l r =>
    if opSupported op then
      match evalNode l with
      | .error e => .error e
      | .ok a =>
        match evalNode r with
        | .error e => .error e
        | .ok b => applyBin op a b
    else .error .unsupported
  | .unaryOp op e =>
    if unarySupported op then
      match evalNode e with
      | .error er => .error er
      | .ok v => .ok (applyUnary op v)
    else .error .unsupported
  | .const (.cint n) => .ok (.int n)
  | .const (.cfloat q) => .ok (.float q)
  | .const (.cbool b) => .ok (.int (if b then 1 else 0))
  | .const (.cimag q) => .ok (.complex (q == 0))
  | _ => .error .unsupported

/-- The characters Python's `str.strip()` removes (ASCII whitespace). -/
def isSpaceC (c : Char) : Bool :=
  c == ' ' || c == '\t' || c == '\n' || c == '\r' ||
    c == Char.ofNat 11 || c == Char.ofNat 12

/-- `str.strip()` on the character list of the input. -/
def pyStrip (l : List Char) : List Char :=
  ((l.dropWhile isSpaceC).reverse.dropWhile isSpaceC).reverse

def pyStripS (s : String) : String := String.mk (pyStrip s.data)

/-- Tokens of the modelled fragment of Python's expression syntax;
`numImag q` is an imaginary literal `qj`. -/
inductive Tok where
  | numInt (n : ℕ)
  | numFloat (q : ℚ)
  | numImag (q : ℚ)
  | str (s : String)
  | ident (s : String)
  | plus | minus | star | dstar | slash | dslash | percent
  | lpar | rpar | dot | comma
deriving DecidableEq, Repr

/-- The single-quote character, `chr(39)`. -/
def sqChar : Char := Char.ofNat 39

def identChar (c : Char) : Bool := c.isAlphanum || c == '_'

def digitsToNat (ds : List Char) : ℕ :=
  ds.foldl (fun acc c => 10 * acc + (c.toNat - 48)) 0

def firstIsDigit : List Char → Bool
  | d :: _ => d.isDigit
  | [] => false

/-- After a numeric literal, a letter or underscore is a lexical error in
Python ("invalid decimal literal"). -/
def numTailOk : List Char → Bool
  | c :: _ => !(c.isAlpha || c == '_')
  | [] => true

/-- Finish a numeric literal whose value is `q` (or the integer `intVal`
when no decimal point or exponent occurred): a `j`/`J` suffix makes it an
imaginary literal, and a following letter or underscore is a lexical
error. -/
def finishNum (isFloat : Bool) (intVal : ℕ) (q : ℚ) :
    List Char → Option (Tok × List Char)
  | 'j' :: r => if numTailOk r then some (.numImag q, r) else none
  | 'J' :: r => if numTailOk r then some (.numImag q, r) else none
  | cs =>
    if numTailOk cs then
      if isFloat then some (.numFloat q, cs)
      else some (.numInt intVal, cs)
    else none

/-- The optional exponent part of a numeric literal.  The value read so far
is the fraction `mNum / mDen` and `isFloat` records whether a decimal point
occurred.  The rational value is assembled with `mkRat` over integer
arithmetic (`mkRat a b` is the normalized fraction `a / b`). -/
def lexExpPart (mNum mDen : ℕ) (isFloat : Bool) (cs : List Char) :
    Option (Tok × List Char) :=
  match cs with
  | 'e' :: rest | 'E' :: rest =>
    let signed : Bool × List Char :=
      match rest with
      | '+' :: r => (true, r)
      | '-' :: r => (false, r)
      | r => (true, r)
    let ds := signed.2.takeWhile Char.isDigit
    let r2 := signed.2.dropWhile Char.isDigit
    if ds.isEmpty then none
    else
      let e := digitsToNat ds
      let q : ℚ :=
        if signed.1 then mkRat (mNum * 10 ^ e) mDen
        else mkRat mNum (mDen * 10 ^ e)
      finishNum true 0 q r2
  | _ => finishNum isFloat mNum (mkRat mNum mDen) cs

/-- A Python numeric literal: digits, an optional decimal point with
further digits, and an optional exponent. -/
def lexNumber (cs : List Char) : Option (Tok × List Char) :=
  let ip := cs.takeWhile Char.isDigit
  let r1 := cs.dropWhile Char.isDigit
  match r1 with
  | '.' :: r2 =>
    let fp := r2.takeWhile Char.isDigit
    let r3 := r2.dropWhile Char.isDigit
    if ip.isEmpty && fp.isEmpty then none
    else
      lexExpPart (digitsToNat ip * 10 ^ fp.length + digitsToNat fp)
        (10 ^ fp.length) true r3
  | _ =>
    if ip.isEmpty then none
    else lexExpPart (digitsToNat ip) 1 false r1

/-- A string literal delimited by `q` (escape sequences not modelled). -/
def lexString (q : Char) (cs : List Char) : Option (Tok × List Char) :=
  let s := cs.takeWhile (fun c => c != q)
  match cs.dropWhile (fun c => c != q) with
  | _ :: rest => some (.str (String.mk s), rest)
  | [] => none

/-- The tokenizer; `fuel` bounds the recursion and any `fuel` at least the
input length plus one is sufficient (each step consumes a character). -/
def tokenizeAux : ℕ → List Char → Option (List Tok)
  | _, [] => some []
  | 0, _ :: _ => none
  | fuel+1, '*' :: '*' :: r => (Tok.dstar :: ·) <$> tokenizeAux fuel r
  | fuel+1, '/' :: '/' :: r => (Tok.dslash :: ·) <$> tokenizeAux fuel r
  | fuel+1, '*' :: r => (Tok.star :: ·) <$> tokenizeAux fuel r
  | fuel+1, '/' :: r => (Tok.slash :: ·) <$> tokenizeAux fuel r
  | fuel+1, '+' :: r => (Tok.plus :: ·) <$> tokenizeAux fuel r
  | fuel+1, '-' :: r => (Tok.minus :: ·) <$> tokenizeAux fuel r
  | fuel+1, '%' :: r => (Tok.percent :: ·) <$> tokenizeAux fuel r
  | fuel+1, '(' :: r => (Tok.lpar :: ·) <$> tokenizeAux fuel r
  | fuel+1, ')' :: r => (Tok.rpar :: ·) <$> tokenizeAux fuel r
  | fuel+1, ',' :: r => (Tok.comma :: ·) <$> tokenizeAux fuel r
  | fuel+1, c :: r =>
    if isSpaceC c then tokenizeAux fuel r
    else if c.isDigit || (c == '.' && firstIsDigit r) then
      match lexNumber (c :: r) with
      | none => none
      | some (t, rest) => (t :: ·) <$> tokenizeAux fuel rest
    else if c == '.' then (Tok.dot :: ·) <$> tokenizeAux fuel r
    else if c == sqChar || c == '"' then
      match lexString c r with
      | none => none
      | some (t, rest) => (t :: ·) <$> tokenizeAux fuel rest
    else if c.isAlpha || c == '_' then
      (Tok.ident (String.mk ((c :: r).takeWhile identChar)) :: ·) <$>
        tokenizeAux fuel ((c :: r).dropWhile identChar)
    else none

mutual

/-- `expr := term (("+"|"-") term)*`, Python's lowest modelled level. -/
def parseAddF : ℕ → List Tok → Option (PyAst × List Tok)
  | 0, _ => none
  | fuel+1, ts =>
    match parseMulF fuel ts with
    | none => none
    | some (l, ts) => parseAddLoop fuel l ts

def parseAddLoop : ℕ → PyAst → List Tok → Option (PyAst × List Tok)
  | 0, _, _ => none
  | fuel+1, l, Tok.plus :: ts =>
    match parseMulF fuel ts with
    | none => none
    | some (r, ts) => parseAddLoop fuel (.binOp .add l r) ts
  | fuel+1, l, Tok.minus :: ts =>
    match parseMulF fuel ts with
    | none => none
    | some (r, ts) => parseAddLoop fuel (.binOp .sub l r) ts
  | _+1, l, ts => some (l, ts)

/-- `term := unary (("*"|"/"|"//"|"%") unary)*`. -/
def parseMulF : ℕ → List Tok → Option (PyAst × List Tok)
  | 0, _ => none
  | fuel+1, ts =>
    match parseUnaryF fuel ts with
    | none => none
    | some (l, ts) => parseMulLoop fuel l ts

def parseMulLoop : ℕ → PyAst → List Tok → Option (PyAst × List Tok)
  | 0, _, _ => none
  | fuel+1, l, Tok.star :: ts =>
    match parseUnaryF fuel ts with
    | none => none
    | some (r, ts) => parseMulLoop fuel (.binOp .mult l r) ts
  | fuel+1, l, Tok.slash :: ts =>
    match parseUnaryF fuel ts with
    | none => none
    | some (r, ts) => parseMulLoop fuel (.binOp .div l r) ts
  | fuel+1, l, Tok.dslash :: ts =>
    match parseUnaryF fuel ts with
    | none => none
    | some (r, ts) => parseMulLoop fuel (.binOp .floorDiv l r) ts
  | fuel+1, l, Tok.percent :: ts =>
    match parseUnaryF fuel ts with
    | none => none
    | some (r, ts) => parseMulLoop fuel (.binOp .mod l r) ts
  | _+1, l, ts => some (l, ts)

/-- `unary := ("+"|"-") unary | power`; unary minus binds looser than `**`
on its left, so `-2 ** 2` is `-(2 ** 2)`, as in Python. -/
def parseUnaryF : ℕ → List Tok → Option (PyAst × List Tok)
  | 0, _ => none
  | fuel+1, Tok.plus :: ts =>
    match parseUnaryF fuel ts with
    | none => none
    | some (e, ts) => some (.unaryOp .uadd e, ts)
  | fuel+1, Tok.minus :: ts =>
    match parseUnaryF fuel ts with
    | none => none
    | some (e, ts) => some (.unaryOp .usub e, ts)
  | fuel+1, ts => parsePowF fuel ts

/-- `power := primary ["**" unary]`, right-associative, with a full unary
expression as exponent (`2 ** -1` is legal), as in Python. -/
def parsePowF : ℕ → List Tok → Option (PyAst × List Tok)
  | 0, _ => none
  | fuel+1, ts =>
    match parsePrimaryF fuel ts with
    | none => none
    | some (b, Tok.dstar :: ts) =>
      match parseUnaryF fuel ts with
      | none => none
      | some (e, ts) => some (.binOp .pow b e, ts)
    | some (b, ts) => some (b, ts)

/-- `primary := atom trailer*` where a trailer is an attribute access or a
call argument list. -/
def parsePrimaryF : ℕ → List Tok → Option (PyAst × List Tok)
  | 0, _ => none
  | fuel+1, ts =>
    match parseAtomF fuel ts with
    | none => none
    | some (a, ts) => parseTrailers fuel a ts

def parseTrailers : ℕ → PyAst → List Tok → Option (PyAst × List Tok)
  | 0, _, _ => none
  | fuel+1, a, Tok.dot :: Tok.ident s :: ts => parseTrailers fuel (.attr a s) ts
  | fuel+1, a, Tok.lpar :: Tok.rpar :: ts => parseTrailers fuel (.call a []) ts
  | fuel+1, a, Tok.lpar :: ts =>
    match parseArgsF fuel ts with
    | none => none
    | some (args, Tok.rpar :: ts) => parseTrailers fuel (.call a args) ts
    | some _ => none
  | _+1, a, ts => some (a, ts)

def parseArgsF : ℕ → List Tok → Option (List PyAst × List Tok)
  | 0, _ => none
  | fuel+1, ts =>
    match parseAddF fuel ts with
    | none => none
    | some (e, Tok.comma :: ts) =>
      match parseArgsF fuel ts with
      | none => none
      | some (es, ts) => some (e :: es, ts)
    | some (e, ts) => some ([e], ts)

/-- `atom := number | string | identifier | "(" expr ")"`; the identifiers
`True`, `False` and `None` are keyword constants in Python 3. -/
def parseAtomF : ℕ → List Tok → Option (PyAst × List Tok)
  | 0, _ => none
  | _+1, Tok.numInt n :: ts => some (.const (.cint n), ts)
  | _+1, Tok.numFloat q :: ts => some (.const (.cfloat q), ts)
  | _+1, Tok.numImag q :: ts => some (.const (.cimag q), ts)
  | _+1, Tok.str s :: ts => some (.const (.cstr s), ts)
  | _+1, Tok.ident s :: ts =>
    if s = "True" then some (.const (.cbool true), ts)
    else if s = "False" then some (.const (.cbool false), ts)
    else if s = "None" then some (.const .cnone, ts)
    else some (.name s, ts)
  | fuel+1, Tok.lpar :: ts =>
    match parseAddF fuel ts with
    | none => none
    | some (e, Tok.rpar :: ts) => some (e, ts)
    | some _ => none
  | _, _ => none

end

/-- Model of `ast.parse(text, mode="eval")` on the modelled fragment:
tokenize, parse one expression, and require that every token was consumed.
`none` stands for `SyntaxError`. -/
def pyParse (cs : List Char) : Option PyAst :=
  match tokenizeAux (cs.length + 1) cs with
  | none => none
  | some ts =>
    match parseAddF (10 * (ts.length + 1)) ts with
    | some (t, []) => some t
    | _ => none

/-- `safe_eval` of `src/app.py`: strip, reject trimmed input longer than
100 characters (`ValueError("Expression too long")`), parse with
`ast.parse(·, mode="eval")` (`SyntaxError` for malformed input), and walk
the tree body with `_eval_node`. -/
def safeEval (s : String) : Except EvalErr PyNum :=
  if 100 < (pyStrip s.data).length then .error .tooLong
  else
    match pyParse (pyStrip s.data) with
    | none => .error .parseError
    | some t => evalNode t

/-- The arithmetic subset of the spec (section 4.1): numeric literals,
unary plus/minus, and the seven whitelisted binary operators.  Boolean
literals are NOT in this subset (the spec lists them under "any other
syntax"). -/
def isArithTree : PyAst → Bool
  | .const (.cint _) => true
  | .const (.cfloat _) => true
  | .binOp op l r => opSupported op && isArithTree l && isArithTree r
  | .unaryOp op e => unarySupported op && isArithTree e
  | _ => false

/-- The trees `_eval_node` actually accepts without raising the
`ValueError`: the arithmetic subset plus boolean constants (Python `bool`
is a subclass of `int` and passes the `isinstance` check) plus complex
constants (caught by the live `ast.Num` compatibility branch). -/
def isWhitelisted : PyAst → Bool
  | .const (.cint _) => true
  | .const (.cfloat _) => true
  | .const (.cbool _) => true
  | .const (.cimag _) => true
  | .binOp op l r => opSupported op && isWhitelisted l && isWhitelisted r
  | .unaryOp op e => unarySupported op && isWhitelisted e
  | _ => false

/-- Whether an evaluation produced a value (no exception). -/
def isOkRes : Except EvalErr PyNum → Bool
  | .ok _ => true
  | .error _ => false

/-- Whether the value of a node is a negative real number. -/
def pyIsNeg : PyNum → Bool
  | .int n => n < 0
  | .float q => q < 0
  | _ => false

/-- One row of the `calculations` table as this core sees it; the
storage-assigned `id` and `created_at` columns are owned by the database
glue and are not modelled. -/
structure Calculation where
  expression : String
  result : String
deriving DecidableEq, Repr

/-- Python `str(result)`.  The integer rendering matches Python; the
rendering of floats and complex numbers is abstracted (no claim depends on
the rendered text, only on whether a record is persisted). -/
def pyStr : PyNum → String
  | .int n => toString n
  | .float q => toString q
  | .floatApprox => "float"
  | .complex _ => "complex"

/-- Python `str(e)` for the exceptions `safe_eval` raises (text used only
for flash messages / JSON error bodies; not load-bearing). -/
def errMsg : EvalErr → String
  | .tooLong => "Expression too long"
  | .parseError => "invalid syntax"
  | .unsupported => "Unsupported or unsafe expression"
  | .divByZero => "division by zero"
  | .typeErr => "unsupported operand types"
  | .overflowErr => "OverflowError"

/-- Responses of the two handlers, as far as the claims observe them. -/
inductive HResp where
  | redirectHome (flashMsg : String)
  | redirectHistory
  | jsonOk (c : Calculation)
  | jsonErr (msg : String) (code : ℕ)
deriving DecidableEq, Repr

/-- The `POST /calculate` handler: read and strip the form field, reject an
empty expression with a flash message, otherwise `safe_eval` it; on success
add and commit a `Calculation` row and redirect to the history page; on any
exception flash the error and redirect home, adding nothing.  The database
session is modelled as the list of committed rows, threaded explicitly. -/
def calculate (formExpr : String) (st : List Calculation) :
    HResp × List Calculation :=
  let expression := pyStripS formExpr
  if expression = "" then (.redirectHome "Enter an expression.", st)
  else
    match safeEval expression with
    | .ok r => (.redirectHistory, st ++ [⟨expression, pyStr r⟩])
    | .error e => (.redirectHome ("Error: " ++ errMsg e), st)

/-- The `GET /api/calc` handler: read and strip the `expr` query parameter,
reject an empty one with a 400 response, otherwise `safe_eval` it; on
success add and commit a `Calculation` row and return it as JSON; on any
exception return the error as JSON with status 400, adding nothing. -/
def apiCalc (exprParam : String) (st : List Calculation) :
    HResp × List Calculation :=
  let expression := pyStripS exprParam
  if expression = "" then (.jsonErr "expr query param required" 400, st)
  else
    match safeEval expression with
    | .ok r => (.jsonOk ⟨expression, pyStr r⟩, st ++ [⟨expression, pyStr r⟩])
    | .error e => (.jsonErr (errMsg e) 400, st)

/-! ### Helper lemmas -/

theorem dropWhile_nil_of_all {p : Char → Bool} :
    ∀ (l : List Char), (∀ c ∈ l, p c = true) → l.dropWhile p = []
  | [], _ => rfl
  | c :: cs, h => by
    rw [List.dropWhile_cons_of_pos (h c (by simp))]
    exact dropWhile_nil_of_all cs fun x hx => h x (by simp [hx])

theorem pyStrip_nil_of_all_space (l : List Char)
    (h : ∀ c ∈ l, isSpaceC c = true) : pyStrip l = [] := by
  unfold pyStrip
  rw [dropWhile_nil_of_all l h]
  rfl

theorem pyAdd_ne_tooLong (a b : PyNum) : pyAdd a b ≠ .error .tooLong := by
  unfold pyAdd
  repeat' split
  all_goals simp

theorem pySub_ne_tooLong (a b : PyNum) : pySub a b ≠ .error .tooLong := by
  unfold pySub
  repeat' split
  all_goals simp

theorem pyMul_ne_tooLong (a b : PyNum) : pyMul a b ≠ .error .tooLong := by
  unfold pyMul
  repeat' split
  all_goals simp

theorem pyDiv_ne_tooLong (a b : PyNum) : pyDiv a b ≠ .error .tooLong := by
  unfold pyDiv
  repeat' split
  all_goals simp

theorem pyFloorDiv_ne_tooLong (a b : PyNum) :
    pyFloorDiv a b ≠ .error .tooLong := by
  unfold pyFloorDiv
  repeat' split
  all_goals simp

theorem pyMod_ne_tooLong (a b : PyNum) : pyMod a b ≠ .error .tooLong := by
  unfold pyMod
  repeat' split
  all_goals simp

theorem pyPow_ne_tooLong (a b : PyNum) : pyPow a b ≠ .error .tooLong := by
  unfold pyPow
  repeat' split
  all_goals simp

/-- `_eval_node` can only raise the "Unsupported or unsafe expression"
`ValueError`, `ZeroDivisionError` or `TypeError`; the length-check
`ValueError` is raised by `safe_eval` before evaluation only. -/
theorem applyBin_ne_tooLong (op : PyBinOp) (a b : PyNum) :
    applyBin op a b ≠ .error .tooLong := by
  cases op <;>
    simp [applyBin, pyAdd_ne_tooLong, pySub_ne_tooLong, pyMul_ne_tooLong,
      pyDiv_ne_tooLong, pyFloorDiv_ne_tooLong, pyMod_ne_tooLong,
      pyPow_ne_tooLong]

theorem evalNode_ne_tooLong : ∀ (t : PyAst), evalNode t ≠ .error .tooLong
  | .const c => by cases c <;> simp [evalNode]
  | .name i => by simp [evalNode]
  | .call f a => by simp [evalNode]
  | .attr o f => by simp [evalNode]
  | .unaryOp op e => by
    intro h
    by_cases hop : unarySupported op = true
    · simp only [evalNode, hop, if_true] at h
      cases hE : evalNode e with
      | error er =>
        rw [hE] at h
        injection h with h2
        exact evalNode_ne_tooLong e (h2 ▸ hE)
      | ok v => rw [hE] at h; exact Except.noConfusion h
    · simp [evalNode, hop] at h
  | .binOp op l r => by
    intro h
    by_cases hop : opSupported op = true
    · simp only [evalNode, hop, if_true] at h
      cases hL : evalNode l with
      | error e =>
        rw [hL] at h
        injection h with h2
        exact evalNode_ne_tooLong l (h2 ▸ hL)
      | ok a =>
        rw [hL] at h
        cases hR : evalNode r with
        | error e =>
          rw [hR] at h
          injection h with h2
          exact evalNode_ne_tooLong r (h2 ▸ hR)
        | ok b =>
          rw [hR] at h
          exact applyBin_ne_tooLong op a b h
    · simp [evalNode, hop] at h

/-- The safety backstop of `_eval_node`: a tree containing any node outside
the whitelist (a name, call, attribute access, string or `None` constant,
or an operator outside `_ops`/`_unary_ops`) never evaluates to a value —
the evaluation of operands preceding the offending node may raise an
arithmetic exception first, but some exception is always raised. -/
theorem evalNode_not_ok_of_not_arith :
    ∀ (t : PyAst), isWhitelisted t = false → isOkRes (evalNode t) = false
  | .const (.cint n), h => by simp [isWhitelisted] at h
  | .const (.cfloat q), h => by simp [isWhitelisted] at h
  | .const (.cbool b), h => by simp [isWhitelisted] at h
  | .const (.cimag q), h => by simp [isWhitelisted] at h
  | .const .cnone, _ => rfl
  | .const (.cstr s), _ => rfl
  | .name i, _ => rfl
  | .call f a, _ => rfl
  | .attr o f, _ => rfl
  | .unaryOp op e, h => by
    by_cases hop : unarySupported op = true
    · have hae : isWhitelisted e = false := by
        simpa [isWhitelisted, hop] using h
      have he := evalNode_not_ok_of_not_arith e hae
      cases hE : evalNode e with
      | error er => simp [evalNode, hop, hE, isOkRes]
      | ok v => rw [hE] at he; simp [isOkRes] at he
    · simp [evalNode, hop, isOkRes]
  | .binOp op l r, h => by
    by_cases hop : opSupported op = true
    · cases hal : isWhitelisted l with
      | false =>
        have hl := evalNode_not_ok_of_not_arith l hal
        cases hL : evalNode l with
        | error e => simp [evalNode, hop, hL, isOkRes]
        | ok v => rw [hL] at hl; simp [isOkRes] at hl
      | true =>
        have har : isWhitelisted r = false := by
          simpa [isWhitelisted, hop, hal] using h
        have hr := evalNode_not_ok_of_not_arith r har
        cases hL : evalNode l with
        | error e => simp [evalNode, hop, hL, isOkRes]
        | ok v =>
          cases hR : evalNode r with
          | error e => simp [evalNode, hop, hL, hR, isOkRes]
          | ok w => rw [hR] at hr; simp [isOkRes] at hr
    · simp [evalNode, hop, isOkRes]

/-- Small integers are far below the int-to-float conversion overflow
threshold. -/
theorem intTooBig_small {n : ℤ} (h : n.natAbs ≤ 9) :
    intTooBig (.int n) = false := by
  simp only [intTooBig, decide_eq_false_iff_not, Nat.not_le]
  have h1 : (2 : ℕ) ^ 970 < 2 ^ 1024 :=
    Nat.pow_lt_pow_right (by omega) (by omega)
  have h2 : (9 : ℕ) < 2 ^ 970 := by
    calc (9 : ℕ) < 2 ^ 4 := by norm_num
      _ ≤ 2 ^ 970 := Nat.pow_le_pow_right (by omega) (by omega)
  omega

theorem intTooBig_float (q : ℚ) : intTooBig (.float q) = false := rfl

/-- Floor-mod takes a nonpositive value when the divisor is negative. -/
theorem fmod_nonpos_of_neg (a : ℤ) {b : ℤ} (hb : b < 0) : a.fmod b ≤ 0 := by
  obtain ⟨n, rfl⟩ := Int.eq_negSucc_of_lt_zero hb
  match a with
  | Int.ofNat 0 => exact le_refl 0
  | Int.ofNat (Nat.succ m) =>
    show Int.subNatNat (m % (n+1)) n ≤ 0
    rw [Int.subNatNat_eq_coe]
    have h1 : m % (n+1) < n + 1 := Nat.mod_lt _ (Nat.succ_pos n)
    omega
  | Int.negSucc m =>
    show -(Int.ofNat ((m+1) % (n+1))) ≤ 0
    exact neg_nonpos_of_nonneg (Int.ofNat_nonneg _)

/-! ### Claim theorems -/

/-- C1 (amended): every input whose parse tree lies outside the set of
trees `_eval_node` accepts — the arithmetic subset EXTENDED with boolean
literals (accepted because `bool` is an `int` subclass) and complex
literals (accepted through the live `ast.Num` compatibility branch) —
evaluates to an error, never to a value, so no code execution occurs; the
error is `UnsupportedSyntax` unless an arithmetic exception in an operand
evaluated before the offending node preempts it.  The two cited examples
return `UnsupportedSyntax`. -/
theorem c1_amended_nonarith_inputs_error :
    (∀ (s : String) (t : PyAst),
      pyParse (pyStrip s.data) = some t → isWhitelisted t = false →
      isOkRes (safeEval s) = false)
    ∧ safeEval ("__import__(" ++ String.mk [sqChar] ++ "os"
        ++ String.mk [sqChar] ++ ").system(" ++ String.mk [sqChar] ++ "ls"
        ++ String.mk [sqChar] ++ ")") = .error .unsupported
    ∧ safeEval "a + 1" = .error .unsupported := by
  refine ⟨?_, rfl, rfl⟩
  intro s t hp ha
  rw [safeEval]
  by_cases hlen : 100 < (pyStrip s.data).length
  · rw [if_pos hlen]; rfl
  · rw [if_neg hlen, hp]
    exact evalNode_not_ok_of_not_arith t ha

theorem c1_amended_witness :
    isOkRes (safeEval "a + 1") = false :=
  c1_amended_nonarith_inputs_error.1 "a + 1"
    (.binOp .add (.name "a") (.const (.cint 1))) rfl rfl

/-- C1 counterexample: `"True + 1"` contains a boolean literal and `"1j"`
is a complex literal, so the syntax of both is outside the claimed
arithmetic subset, yet `evaluate` returns the values 2 and `1j` instead of
an `UnsupportedSyntax`/`ParseError` error: Python `bool` is a subclass of
`int`, so `ast.Constant(True)` passes the `isinstance` whitelist check of
`_eval_node` and `True` evaluates as 1, and `ast.Constant(1j)` is caught
by the live `ast.Num` compatibility branch, which returns its value. -/
theorem c1_counterexample_bool_literal_evaluates :
    pyParse (pyStrip ("True + 1").data)
      = some (.binOp .add (.const (.cbool true)) (.const (.cint 1)))
    ∧ isArithTree (.binOp .add (.const (.cbool true)) (.const (.cint 1)))
      = false
    ∧ safeEval "True + 1" = .ok (.int 2)
    ∧ pyParse (pyStrip ("1j").data) = some (.const (.cimag 1))
    ∧ isArithTree (.const (.cimag 1)) = false
    ∧ safeEval "1j" = .ok (.complex false) :=
  ⟨rfl, rfl, rfl, rfl, rfl, rfl⟩

/-- C3: `evaluate` computes the spec's example values, with standard
operator precedence: `2 + 3` is 5, `2 + 3 * 4` is 14, `(2 + 3) * 4` is 20,
`2 ** 10` is 1024, `7 // 2` is 3, and `7 % 2` is 1 (all Python `int`s). -/
theorem c3_examples :
    safeEval "2 + 3" = .ok (.int 5)
    ∧ safeEval "2 + 3 * 4" = .ok (.int 14)
    ∧ safeEval "(2 + 3) * 4" = .ok (.int 20)
    ∧ safeEval "2 ** 10" = .ok (.int 1024)
    ∧ safeEval "7 // 2" = .ok (.int 3)
    ∧ safeEval "7 % 2" = .ok (.int 1) :=
  ⟨rfl, rfl, rfl, rfl, rfl, rfl⟩

/-- A power with base magnitude at most one and positive exponent stays in
the float range. -/
theorem powOverflows_false_of_small (x e : ℚ)
    (h1 : x.num.natAbs ≤ x.den) (h2 : 0 < e) :
    powOverflows x e = false := by
  have hnum : 0 ≤ e.num := le_of_lt (Rat.num_pos.mpr h2)
  unfold powOverflows
  rw [if_pos hnum]
  simp only [decide_eq_false_iff_not]
  intro hcon
  have ha : x.num.natAbs ^ e.num.toNat ≤ x.den ^ e.num.toNat :=
    Nat.pow_le_pow_left h1 _
  have hd : 0 < x.den ^ e.num.toNat := Nat.pow_pos x.pos
  have h2k : (2 : ℕ) ^ (1024 * e.den) ≤ 1 :=
    Nat.le_of_mul_le_mul_right (by simpa using le_trans hcon ha) hd
  have h2k2 : (2 : ℕ) ^ 1 ≤ 2 ^ (1024 * e.den) :=
    Nat.pow_le_pow_right (by omega) (by have := e.pos; omega)
  omega

/-- C4 (amended): a power whose base evaluates to a negative number of
magnitude at most 1 and whose exponent evaluates to a positive fractional
(non-integral) float returns a complex number value — Python 3's `**` goes
through complex exponentiation here rather than raising, and for such
bases the result magnitude is at most 1, so no range error can occur.  No
input produces a `DomainError`, which does not exist in the code; for
bases of larger magnitude (or negative fractional exponents of tiny
bases) CPython instead raises `OverflowError` when the complex result
leaves the float range, as in the two evaluated examples
(`OverflowError: complex exponentiation` for a float base, and
`OverflowError: int too large to convert to float` for an int base beyond
float range). -/
theorem c4_amended_neg_base_frac_exp_complex :
    (∀ (l r : PyAst) (vb : PyNum) (q : ℚ),
      evalNode l = .ok vb → pyIsNeg vb = true → -1 ≤ toQ vb →
      evalNode r = .ok (.float q) → q.den ≠ 1 → 0 < q →
      evalNode (.binOp .pow l r) = .ok (.complex false))
    ∧ safeEval "(-1e206) ** 1.5" = .error .overflowErr
    ∧ safeEval "(-(10**400)) ** 1.5" = .error .overflowErr := by
  refine ⟨?_, rfl, rfl⟩
  intro l r vb q hl hneg hge hr hden hpos
  have h2 : pyIsIntegral (PyNum.float q) = false := by
    simp [pyIsIntegral]
    exact hden
  cases vb with
  | int n =>
    have hn : n < 0 := by simpa [pyIsNeg] using hneg
    have hn1 : (-1 : ℤ) ≤ n := by
      have h9 : ((-1 : ℤ) : ℚ) ≤ ((n : ℤ) : ℚ) := by
        push_cast
        simpa [toQ] using hge
      exact_mod_cast h9
    have hn2 : n = -1 := by omega
    subst hn2
    have hov : powOverflows (toQ (PyNum.int (-1))) (toQ (PyNum.float q))
        = false := by
      apply powOverflows_false_of_small
      · simp [toQ]
      · simpa [toQ] using hpos
    have h1 : toQ (PyNum.int (-1)) < 0 := by simp [toQ]
    have h3 : toQ (PyNum.int (-1)) ≠ 0 := by simp [toQ]
    have h4 : intTooBig (PyNum.int (-1)) = false := intTooBig_small (by decide)
    simp [evalNode, hl, hr, opSupported, applyBin, pyPow, h1, h2, h3, hov,
      h4, intTooBig_float]
  | float p =>
    have hp : p < 0 := by simpa [pyIsNeg] using hneg
    have hnd : p.num.natAbs ≤ p.den := by
      have hdp : (0 : ℚ) < (p.den : ℚ) := by exact_mod_cast p.pos
      have hq : (p.num : ℚ) / (p.den : ℚ) = p := Rat.num_div_den p
      have hle : (-1 : ℚ) * (p.den : ℚ) ≤ (p.num : ℚ) := by
        rw [← le_div_iff₀ hdp, hq]
        exact hge
      have hle2 : -(p.den : ℤ) ≤ p.num := by
        have h9 : ((-(p.den : ℤ) : ℤ) : ℚ) ≤ ((p.num : ℤ) : ℚ) := by
          push_cast
          linarith [hle]
        exact_mod_cast h9
      have hpn : p.num < 0 := Rat.num_neg.mpr hp
      omega
    have hov : powOverflows (toQ (PyNum.float p)) (toQ (PyNum.float q))
        = false := by
      apply powOverflows_false_of_small
      · simpa [toQ] using hnd
      · simpa [toQ] using hpos
    have h1 : toQ (PyNum.float p) < 0 := by simpa [toQ] using hp
    have h3 : toQ (PyNum.float p) ≠ 0 := by simp [toQ]; exact ne_of_lt hp
    simp [evalNode, hl, hr, opSupported, applyBin, pyPow, h1, h2, h3, hov,
      intTooBig_float]
  | floatApprox => simp [pyIsNeg] at hneg
  | complex z => simp [pyIsNeg] at hneg

theorem c4_amended_witness :
    evalNode (.binOp .pow (.unaryOp .usub (.const (.cint 1)))
      (.const (.cfloat (mkRat 1 2)))) = .ok (.complex false) :=
  c4_amended_neg_base_frac_exp_complex.1
    (.unaryOp .usub (.const (.cint 1))) (.const (.cfloat (mkRat 1 2)))
    (.int (-1)) (mkRat 1 2) rfl rfl (by norm_num [toQ]) rfl (by decide)
    (by decide)

/-- C4 counterexample: `evaluate("(-8) ** 0.5")` returns a value (a complex
number), it does not fail with a `DomainError`. -/
theorem c4_counterexample_neg_base_frac_exp_returns_value :
    safeEval "(-8) ** 0.5" = .ok (.complex false)
    ∧ isOkRes (safeEval "(-8) ** 0.5") = true :=
  ⟨rfl, rfl⟩

/-- C5: an input whose trimmed length exceeds 100 characters fails with
`TooLong` regardless of content, and an input of trimmed length at most 100
is never rejected with `TooLong`. -/
theorem c5_length_limit :
    (∀ s : String, 100 < (pyStrip s.data).length →
      safeEval s = .error .tooLong)
    ∧ (∀ s : String, (pyStrip s.data).length ≤ 100 →
      safeEval s ≠ .error .tooLong) := by
  constructor
  · intro s h
    simp [safeEval, h]
  · intro s h hc
    rw [safeEval] at hc
    rw [if_neg (by omega)] at hc
    cases hP : pyParse (pyStrip s.data) with
    | none => rw [hP] at hc; simp at hc
    | some t => rw [hP] at hc; exact evalNode_ne_tooLong t hc

theorem c5_length_limit_witness :
    safeEval (String.mk (List.replicate 101 '1')) = .error .tooLong
    ∧ safeEval "2" ≠ .error .tooLong :=
  ⟨c5_length_limit.1 (String.mk (List.replicate 101 '1')) (by decide),
   c5_length_limit.2 "2" (by decide)⟩

/-- C6: for an integer modulo `a % b` with `b ≠ 0`, `evaluate` returns the
floor-mod remainder `Int.fmod a b`, which is zero or has the sign of the
divisor, and together with the evaluator's floor division `a // b =
Int.fdiv a b` satisfies `a = (a // b) * b + (a % b)`. -/
theorem c6_mod_floor_semantics :
    ∀ (l r : PyAst) (a b : ℤ),
      evalNode l = .ok (.int a) → evalNode r = .ok (.int b) → b ≠ 0 →
      evalNode (.binOp .mod l r) = .ok (.int (Int.fmod a b))
      ∧ evalNode (.binOp .floorDiv l r) = .ok (.int (Int.fdiv a b))
      ∧ (Int.fmod a b = 0 ∨ (0 < b ∧ 0 < Int.fmod a b)
          ∨ (b < 0 ∧ Int.fmod a b < 0))
      ∧ a = Int.fdiv a b * b + Int.fmod a b := by
  intro l r a b hl hr hb
  refine ⟨?_, ?_, ?_, ?_⟩
  · simp [evalNode, hl, hr, opSupported, applyBin, pyMod, hb]
  · simp [evalNode, hl, hr, opSupported, applyBin, pyFloorDiv, hb]
  · rcases lt_trichotomy b 0 with h | h | h
    · have h2 := fmod_nonpos_of_neg a h
      omega
    · exact absurd h hb
    · have h2 := Int.fmod_nonneg' a h
      omega
  · have h3 := Int.fdiv_add_fmod a b
    rw [Int.mul_comm b (Int.fdiv a b)] at h3
    omega

theorem c6_mod_floor_semantics_witness :
    evalNode (.binOp .mod (.const (.cint 7)) (.const (.cint (-2))))
        = .ok (.int (Int.fmod 7 (-2)))
    ∧ evalNode (.binOp .floorDiv (.const (.cint 7)) (.const (.cint (-2))))
        = .ok (.int (Int.fdiv 7 (-2)))
    ∧ (Int.fmod 7 (-2) = 0 ∨ ((0:ℤ) < -2 ∧ 0 < Int.fmod 7 (-2))
        ∨ ((-2:ℤ) < 0 ∧ Int.fmod 7 (-2) < 0))
    ∧ (7:ℤ) = Int.fdiv 7 (-2) * (-2) + Int.fmod 7 (-2) :=
  c6_mod_floor_semantics (.const (.cint 7)) (.const (.cint (-2))) 7 (-2)
    rfl rfl (by decide)

/-- C7: evaluating a `UnaryOp(USub)` node negates the value of its operand
(`pyNeg` is arithmetic negation on ints and floats), and evaluating a
`UnaryOp(UAdd)` node returns exactly the evaluation of its operand
(`operator.pos` is the identity on numbers), errors included. -/
theorem c7_unary_semantics :
    (∀ (e : PyAst) (v : PyNum), evalNode e = .ok v →
      evalNode (.unaryOp .usub e) = .ok (pyNeg v))
    ∧ (∀ e : PyAst, evalNode (.unaryOp .uadd e) = evalNode e)
    ∧ (∀ n : ℤ, pyNeg (.int n) = .int (-n))
    ∧ (∀ q : ℚ, pyNeg (.float q) = .float (-q)) := by
  refine ⟨?_, ?_, fun n => rfl, fun q => rfl⟩
  · intro e v h
    simp [evalNode, h, applyUnary, unarySupported]
  · intro e
    cases h : evalNode e with
    | error er => simp [evalNode, h, unarySupported]
    | ok v => simp [evalNode, h, applyUnary, unarySupported]

theorem c7_unary_semantics_witness :
    evalNode (.unaryOp .usub (.const (.cint 2))) = .ok (.int (-2)) :=
  c7_unary_semantics.1 (.const (.cint 2)) (.int 2) rfl

/-- C8: in both the form handler (`POST /calculate`) and the JSON API
handler (`GET /api/calc`), a `Calculation` record is persisted if and only
if `safe_eval` of the submitted (stripped) expression succeeds; on any
error the stored list is unchanged, and on success exactly the one new
record is appended. -/
theorem c8_persist_iff_success :
    ∀ (raw : String) (st : List Calculation),
      ((calculate raw st).2 ≠ st ↔ isOkRes (safeEval (pyStripS raw)) = true)
      ∧ ((apiCalc raw st).2 ≠ st ↔ isOkRes (safeEval (pyStripS raw)) = true)
      ∧ (∀ v, safeEval (pyStripS raw) = .ok v →
          (calculate raw st).2 = st ++ [⟨pyStripS raw, pyStr v⟩]
          ∧ (apiCalc raw st).2 = st ++ [⟨pyStripS raw, pyStr v⟩]) := by
  intro raw st
  by_cases he : pyStripS raw = ""
  · have hev : safeEval "" = .error .parseError := rfl
    refine ⟨?_, ?_, ?_⟩
    · simp [calculate, he, hev, isOkRes]
    · simp [apiCalc, he, hev, isOkRes]
    · intro v hv
      rw [he, hev] at hv
      exact Except.noConfusion hv
  · cases hr : safeEval (pyStripS raw) with
    | ok v =>
      refine ⟨?_, ?_, ?_⟩
      · simp [calculate, if_neg he, hr, isOkRes]
      · simp [apiCalc, if_neg he, hr, isOkRes]
      · intro w hw
        injection hw with h2
        subst h2
        constructor
        · simp [calculate, if_neg he, hr]
        · simp [apiCalc, if_neg he, hr]
    | error e =>
      refine ⟨?_, ?_, ?_⟩
      · simp [calculate, if_neg he, hr, isOkRes]
      · simp [apiCalc, if_neg he, hr, isOkRes]
      · intro w hw
        exact Except.noConfusion hw

theorem c8_persist_iff_success_witness :
    (calculate "2 + 3" []).2 = [⟨pyStripS "2 + 3", pyStr (.int 5)⟩]
    ∧ (apiCalc "2 + 3" []).2 = [⟨pyStripS "2 + 3", pyStr (.int 5)⟩] :=
  (c8_persist_iff_success "2 + 3" []).2.2 (.int 5) rfl

/-- C9: `evaluate` is a pure function of its input string — in this
embedding it is a total function, so two calls on the same string
necessarily yield the same result (value or error). -/
theorem c9_deterministic :
    ∀ (s : String) (r₁ r₂ : Except EvalErr PyNum),
      safeEval s = r₁ → safeEval s = r₂ → r₁ = r₂ :=
  fun _ _ _ h₁ h₂ => h₁ ▸ h₂ ▸ rfl

theorem c9_deterministic_witness :
    (Except.ok (PyNum.int 5) : Except EvalErr PyNum) = .ok (.int 5) :=
  c9_deterministic "2 + 3" (.ok (.int 5)) (.ok (.int 5)) rfl rfl

/-- C10: the empty string and every whitespace-only string strip to the
empty string, which `ast.parse` rejects, so `evaluate` fails with a
`ParseError` (and in particular does not crash or return a value). -/
theorem c10_blank_input_parse_error (s : String)
    (h : ∀ c ∈ s.data, isSpaceC c = true) :
    safeEval s = .error .parseError := by
  unfold safeEval
  rw [pyStrip_nil_of_all_space s.data h]
  rfl

theorem c10_blank_input_witness :
    safeEval "" = .error .parseError ∧ safeEval "   " = .error .parseError :=
  ⟨c10_blank_input_parse_error "" (by decide),
   c10_blank_input_parse_error "   " (by decide)⟩

end FlaskCalc
